import Mathlib

/-!
Verification of the neris-dashboards filtered-query engine and cross-filter
reconciliation protocol.

The definitions below are a shallow embedding of the Python modules
`neris_dash_common/crossfilters.py`, `neris_dash_common/filters.py`,
`neris_dash_common/aggregations.py` and the zero-row aggregate branch of
`neris_dash_common/data.py`, together with the concrete summary-card
configuration of `apps/cornsacks/tables.py`.

Modelling conventions:
* Python values (filter-store entries, Plotly point attributes, coordinates)
  are modelled by the inductive type `Val`.  Python's `int` and `float` are
  merged into one rational constructor `Val.vnum`; this matches Python's
  cross-type numeric equality (`1 == 1.0`) which is the equality the code
  relies on.  The textual rendering of a merged number can differ from
  Python's (`str(5.7)`), but no claim observes the rendering of a number.
* Python dicts are association lists (`Dict`) preserving insertion order,
  with `dset` updating in place and appending new keys at the end, exactly
  as CPython dicts do.
* A mutating helper of the source that writes dict entries and never reads
  them back (`_update_filters_from_selection_values`) is translated as the
  list of (key, value) writes it emits, applied in order by `applyWrites`.
* Python `round` is banker's rounding (round half to even); `pyRound`
  implements it on rationals.
* Paths on which CPython would raise an exception that the source does not
  catch (sorting values of incompatible types, indexing a dict with a list
  key, rounding a non-numeric coordinate) are unreachable for the payload
  shapes the dashboards produce; at those spots the embedding returns a
  neutral value and the spot is marked by a comment.
-/

/-- A Python value as it appears in filter stores and Plotly payloads. -/
inductive Val : Type where
  | vnone : Val
  | vbool : Bool → Val
  | vnum  : ℚ → Val
  | vstr  : String → Val
  | vlist : List Val → Val

mutual

/-- Decidable equality on `Val` (the deriving handler does not support the
nested `List Val` occurrence). -/
def valDecEq : (a b : Val) → Decidable (a = b)
  | .vnone, .vnone => isTrue rfl
  | .vnone, .vbool _ => isFalse (by intro h; exact Val.noConfusion h)
  | .vnone, .vnum _ => isFalse (by intro h; exact Val.noConfusion h)
  | .vnone, .vstr _ => isFalse (by intro h; exact Val.noConfusion h)
  | .vnone, .vlist _ => isFalse (by intro h; exact Val.noConfusion h)
  | .vbool _, .vnone => isFalse (by intro h; exact Val.noConfusion h)
  | .vbool a, .vbool b =>
    if h : a = b then isTrue (by rw [h]) else isFalse (by intro h2; cases h2; exact h rfl)
  | .vbool _, .vnum _ => isFalse (by intro h; exact Val.noConfusion h)
  | .vbool _, .vstr _ => isFalse (by intro h; exact Val.noConfusion h)
  | .vbool _, .vlist _ => isFalse (by intro h; exact Val.noConfusion h)
  | .vnum _, .vnone => isFalse (by intro h; exact Val.noConfusion h)
  | .vnum _, .vbool _ => isFalse (by intro h; exact Val.noConfusion h)
  | .vnum a, .vnum b =>
    if h : a = b then isTrue (by rw [h]) else isFalse (by intro h2; cases h2; exact h rfl)
  | .vnum _, .vstr _ => isFalse (by intro h; exact Val.noConfusion h)
  | .vnum _, .vlist _ => isFalse (by intro h; exact Val.noConfusion h)
  | .vstr _, .vnone => isFalse (by intro h; exact Val.noConfusion h)
  | .vstr _, .vbool _ => isFalse (by intro h; exact Val.noConfusion h)
  | .vstr _, .vnum _ => isFalse (by intro h; exact Val.noConfusion h)
  | .vstr a, .vstr b =>
    if h : a = b then isTrue (by rw [h]) else isFalse (by intro h2; cases h2; exact h rfl)
  | .vstr _, .vlist _ => isFalse (by intro h; exact Val.noConfusion h)
  | .vlist _, .vnone => isFalse (by intro h; exact Val.noConfusion h)
  | .vlist _, .vbool _ => isFalse (by intro h; exact Val.noConfusion h)
  | .vlist _, .vnum _ => isFalse (by intro h; exact Val.noConfusion h)
  | .vlist _, .vstr _ => isFalse (by intro h; exact Val.noConfusion h)
  | .vlist a, .vlist b =>
    match valListDecEq a b with
    | isTrue h => isTrue (by rw [h])
    | isFalse h => isFalse (by intro h2; cases h2; exact h rfl)

/-- Decidable equality on lists of `Val`. -/
def valListDecEq : (a b : List Val) → Decidable (a = b)
  | [], [] => isTrue rfl
  | [], _ :: _ => isFalse (by intro h; exact List.noConfusion h)
  | _ :: _, [] => isFalse (by intro h; exact List.noConfusion h)
  | x :: xs, y :: ys =>
    match valDecEq x y, valListDecEq xs ys with
    | isTrue h1, isTrue h2 => isTrue (by rw [h1, h2])
    | isFalse h1, _ => isFalse (by intro h2; cases h2; exact h1 rfl)
    | isTrue _, isFalse h2 => isFalse (by intro h3; cases h3; exact h2 rfl)

end

instance : DecidableEq Val := valDecEq

/-- A Python dict with `String` keys, as an insertion-ordered association list. -/
abbrev Dict := List (String × Val)

/-- A single-quote character, kept out of literals. -/
def sqc : Char := Char.ofNat 39

/-- The one-character string holding a single quote. -/
def sqs : String := String.singleton sqc

/-- Python truthiness (`bool(v)`). -/
def pyTruthy : Val → Bool
  | .vnone => false
  | .vbool b => b
  | .vnum q => q != 0
  | .vstr s => s != ""
  | .vlist l => !l.isEmpty

/-- `d.get(k)` with Python's `None` default: the first entry for `k`. -/
def pyGet (d : Dict) (k : String) : Val :=
  match d with
  | [] => Val.vnone
  | p :: rest => if p.1 == k then p.2 else pyGet rest k

/-- `k in d` for a Python dict. -/
def hasKey (d : Dict) (k : String) : Bool :=
  d.any (fun p => p.1 == k)

/-- `d[k] = v` on a Python dict: update in place, else append. -/
def dset (d : Dict) (k : String) (v : Val) : Dict :=
  match d with
  | [] => [(k, v)]
  | p :: rest => if p.1 == k then (k, v) :: rest else p :: dset rest k v

/-- Apply a list of dict writes in order (repeated `d[k] = v`). -/
def applyWrites (ws : List (String × Val)) (d : Dict) : Dict :=
  ws.foldl (fun d2 w => dset d2 w.1 w.2) d

/-- The value of the last write to `k` in a write list, if any. -/
def lastWrite (ws : List (String × Val)) (k : String) : Option Val :=
  match ws with
  | [] => none
  | w :: rest => (lastWrite rest k).or (if w.1 == k then some w.2 else none)

/-- Insert into a Python set modelled as a duplicate-free list (`s.add(v)`). -/
def vsInsert (s : List Val) (v : Val) : List Val :=
  if s.contains v then s else s ++ [v]

/-- `a.union(b)` / `a.update(b)` on set-as-list values. -/
def vsUnion (a b : List Val) : List Val :=
  b.foldl vsInsert a

/-- Insert into a Python set of strings modelled as a duplicate-free list. -/
def strInsert (ks : List String) (k : String) : List String :=
  if ks.contains k then ks else ks ++ [k]

/-- Floor of a rational as an integer, computably. -/
def ratFloor (q : ℚ) : ℤ := q.num.fdiv q.den

/-- Python `round(x)` on a rational: nearest integer, ties to even.
With `q = n/d` (`d > 0`), `f` is the floor and `r` the remainder, so the
fractional part `r/d` compares with one half as `2r` with `d`. -/
def pyRound (q : ℚ) : ℤ :=
  let n := q.num
  let d : ℤ := (q.den : ℤ)
  let f := n.fdiv d
  let r := n - f * d
  if 2 * r < d then f
  else if d < 2 * r then f + 1
  else if f % 2 = 0 then f else f + 1

/-- Truncation toward zero, Python's `int(float)`. -/
def ratTrunc (q : ℚ) : ℤ := q.num.tdiv q.den

/-- Is this a nonempty string of ASCII digits (`str.isdigit` for the inputs here)? -/
def strIsDigits (s : String) : Bool :=
  !s.data.isEmpty && s.data.all (fun c => c.isDigit)

/-- Numeric value of a digit string. -/
def digitsToNat (s : String) : Nat :=
  s.data.foldl (fun n c => 10 * n + (c.toNat - 48)) 0

mutual

/-- Python `str(v)`.  Number and nested-list rendering is approximate
(Python would print floats and repr-quote strings inside lists); no claim
observes those renderings. -/
def pyStr : Val → String
  | .vnone => "None"
  | .vbool b => if b then "True" else "False"
  | .vnum q => if q.den == 1 then toString q.num else toString q
  | .vstr s => s
  | .vlist vs => "[" ++ pyStrList vs ++ "]"

/-- Comma-joined rendering of a list of values. -/
def pyStrList : List Val → String
  | [] => ""
  | [v] => pyStr v
  | v :: rest => pyStr v ++ ", " ++ pyStrList rest

end

/-- Strip surrounding whitespace from a character list (`str.strip`). -/
def trimChars (cs : List Char) : List Char :=
  ((cs.dropWhile (fun c => c.isWhitespace)).reverse.dropWhile
    (fun c => c.isWhitespace)).reverse

/-- Python `int(v)`: truncate numbers, parse optionally signed digit
strings (with surrounding whitespace stripped), `True`/`False` as 1/0;
`none` models the `ValueError`/`TypeError` cases. -/
def pyInt : Val → Option ℤ
  | .vnum q => some (ratTrunc q)
  | .vbool b => some (if b then 1 else 0)
  | .vstr s =>
    let t := trimChars s.data
    let neg := t.headD ' ' == '-'
    let digits := if neg || t.headD ' ' == '+' then t.drop 1 else t
    if !digits.isEmpty && digits.all (fun c => c.isDigit) then
      some (if neg then -(digitsToNat (String.mk digits) : ℤ)
            else (digitsToNat (String.mk digits) : ℤ))
    else none
  | _ => none

/-- `isinstance(v, (int, float))` — in Python `bool` is a subclass of `int`,
so booleans qualify and count as 1/0. -/
def valAsNumber : Val → Option ℚ
  | .vnum q => some q
  | .vbool b => some (if b then 1 else 0)
  | _ => none

/-- A total Boolean order on `Val` used for `sorted`.  It agrees with
Python on homogeneous lists of numbers and homogeneous lists of strings,
the only shapes the selection sets take (Python raises `TypeError` on
mixed-type sorts); other constructors are ranked arbitrarily. -/
def valLe (a b : Val) : Bool :=
  match a, b with
  | .vnum p, .vnum q => p ≤ q
  | .vstr s, .vstr t => s ≤ t
  | .vbool x, .vbool y => !x || y
  | .vnone, _ => true
  | _, .vnone => false
  | .vbool _, _ => true
  | _, .vbool _ => false
  | .vnum _, _ => true
  | _, .vnum _ => false
  | .vstr _, _ => true
  | _, .vstr _ => false
  | .vlist _, .vlist _ => true

/-- Insert into a list sorted by `le`. -/
def insSorted (le : Val → Val → Bool) (x : Val) : List Val → List Val
  | [] => [x]
  | y :: ys => if le x y then x :: y :: ys else y :: insSorted le x ys

/-- `sorted(list(s))` on a list of values. -/
def sortVals (l : List Val) : List Val :=
  l.foldr (insSorted valLe) []

/-- Insert into a sorted list of rationals. -/
def insSortedQ (x : ℚ) : List ℚ → List ℚ
  | [] => [x]
  | y :: ys => if x ≤ y then x :: y :: ys else y :: insSortedQ x ys

/-- `sorted` on a list of converted integers (held as rationals). -/
def sortQ (l : List ℚ) : List ℚ :=
  l.foldr insSortedQ []

/-- The value of `filter_mapping`: a single store key or a list/tuple of keys. -/
inductive FilterKey : Type where
  | single (k : String) : FilterKey
  | multi (ks : List String) : FilterKey
deriving DecidableEq

/-- `mapping.get(attr)` on the filter mapping. -/
def fmGet (fm : List (String × FilterKey)) (attr : String) : Option FilterKey :=
  (fm.find? (fun p => p.1 == attr)).map (fun p => p.2)

/-- Python truthiness of a mapping value (`if filter_key:`). -/
def keyTruthy : FilterKey → Bool
  | .single k => k != ""
  | .multi ks => !ks.isEmpty

/-- The `"range"` entry of a Plotly selection payload: optional coordinate
pairs for the x and y axes. -/
structure RangeData : Type where
  x : Option (List Val)
  y : Option (List Val)
deriving DecidableEq

/-- A Plotly `selectedData`/`clickData` payload, modelled by its `"points"`
and `"range"` keys (the only keys the source reads); `none` in a field means
the key is absent. -/
structure SelData : Type where
  points : Option (List Dict)
  range : Option RangeData
deriving DecidableEq

/-- Python truthiness of a payload dict: nonempty iff some key is present. -/
def pyTruthySel (d : SelData) : Bool :=
  d.points.isSome || d.range.isSome

/-- `selected_data or click_data`: first operand if truthy, else second. -/
def pyOr (a b : Option SelData) : Option SelData :=
  match a with
  | some d => if pyTruthySel d then some d else b
  | none => b

/-- `data.get("points")` truthiness: key present and list nonempty. -/
def pointsTruthy (d : SelData) : Bool :=
  match d.points with
  | some l => !l.isEmpty
  | none => false

/-- `data.get("range")` truthiness: key present and dict nonempty. -/
def rangeTruthy (d : SelData) : Bool :=
  match d.range with
  | some r => r.x.isSome || r.y.isSome
  | none => false

/-!  Private helpers of `crossfilters.py`, in source order. -/

/-- `_resolve_point_value`: resolve one point coordinate to a label;
`none` models the `_MISSING` sentinel for out-of-bounds indices. -/
def resolve_point_value (val : Val) (order : Option (List Val))
    (handle_digit_strings : Bool) : Option Val :=
  match order with
  | none => some val
  | some ord =>
    match valAsNumber val with
    | some q =>
      -- numeric index: rounded, in-bounds lookup, else _MISSING
      let idx := pyRound q
      if 0 ≤ idx && idx < (ord.length : ℤ) then some (ord.getD idx.toNat Val.vnone)
      else none
    | none =>
      if handle_digit_strings && strIsDigits (pyStr val) then
        let n : ℚ := (digitsToNat (pyStr val) : ℚ)
        if ord.contains (Val.vnum n) then some (Val.vnum n) else some val
      else some val

/-- `_resolve_coordinate_range`: resolve a `(min, max)` coordinate pair.
With an order list it becomes the set of labels at the rounded inclusive
index range; without one the raw pair is returned (as the set the caller
builds from it).  Non-numeric coordinates alongside an order list would
raise `TypeError` in Python; they yield the empty set here. -/
def resolve_coordinate_range (range_pair : List Val) (order : Option (List Val)) :
    List Val :=
  if range_pair.length != 2 then []
  else
    match order with
    | none => vsUnion [] range_pair
    | some ord =>
      match valAsNumber (range_pair.getD 0 Val.vnone),
            valAsNumber (range_pair.getD 1 Val.vnone) with
      | some q0, some q1 =>
        let start := pyRound q0
        let stop := pyRound q1
        (List.range ord.length).foldl
          (fun acc j =>
            if start ≤ Int.ofNat j && Int.ofNat j ≤ stop then
              vsInsert acc (ord.getD j Val.vnone)
            else acc)
          []
      | _, _ => []

/-- One step of the `_parse_selected_points` inner loop: record `key` in the
results (with an empty set on first sight) and add the resolved value unless
it is `_MISSING`. -/
def addPointKey (results : List (String × List Val)) (point : Dict) (key : String)
    (x_order y_order : Option (List Val)) : List (String × List Val) :=
  let results2 := if results.any (fun p => p.1 == key) then results
                  else results ++ [(key, [])]
  let val : Option Val :=
    if key == "x" then resolve_point_value (pyGet point "x") x_order false
    else if key == "y" then resolve_point_value (pyGet point "y") y_order true
    else some (pyGet point key)
  match val with
  | some v => results2.map (fun p => if p.1 == key then (p.1, vsInsert p.2 v) else p)
  | none => results2

/-- `_parse_selected_points`: per-attribute sets of values taken from the
`points` of interaction data. -/
def parse_selected_points (data : Option SelData)
    (x_order y_order : Option (List Val)) : List (String × List Val) :=
  match data with
  | none => []
  | some d =>
    -- `if not data or "points" not in data: return {}` — a falsy payload has
    -- no `points` key in this model, so one check covers both.
    match d.points with
    | none => []
    | some pts =>
      pts.foldl
        (fun res point =>
          point.foldl (fun res2 kv => addPointKey res2 point kv.1 x_order y_order) res)
        []

/-- `_parse_selected_range`: x and y value sets taken from the `range` of
Dash selectedData. -/
def parse_selected_range (data : Option SelData)
    (x_order y_order : Option (List Val)) : List Val × List Val :=
  match data with
  | none => ([], [])
  | some d =>
    match d.range with
    | none => ([], [])
    | some r =>
      let sx := match r.x with
        | some pair => vsUnion [] (resolve_coordinate_range pair x_order)
        | none => []
      let sy := match r.y with
        | some pair => vsUnion [] (resolve_coordinate_range pair y_order)
        | none => []
      (sx, sy)

/-- `_is_selection_empty`: falsy payload, or no truthy `points` and no
truthy `range`. -/
def is_selection_empty (selected_data : Option SelData) : Bool :=
  match selected_data with
  | none => true
  | some d => !pyTruthySel d || (!pointsTruthy d && !rangeTruthy d)

/-- Does the string contain the hierarchy separator `"||"`? -/
def containsSep (s : String) : Bool :=
  (List.range s.data.length).any
    (fun i => ['|', '|'].isPrefixOf (s.data.drop i))

/-- `current_id.rsplit("||", 1)[0]`: everything before the last occurrence
of `"||"` (the whole string if there is none). -/
def parentSegment (s : String) : String :=
  match ((List.range s.data.length).filter
      (fun i => ['|', '|'].isPrefixOf (s.data.drop i))).max? with
  | some i => String.mk (s.data.take i)
  | none => s

/-- The per-point rewrite of `_handle_hierarchical_zoom_out`'s loop body. -/
def zoomOutPoint (point : Dict) (default_value : Val) : Dict :=
  if pyGet point "percentEntry" == Val.vnum 1 then
    match pyGet point "id" with
    | .vstr s =>
      if Val.vstr s != default_value then
        if containsSep s then dset point "id" (Val.vstr (parentSegment s))
        else dset point "id" default_value
      else point
    | _ => point
  else point

/-- `_handle_hierarchical_zoom_out`: rewrite center-node clicks to their
parent id (the result keeps only the `points` key, as in the source). -/
def handle_hierarchical_zoom_out (data : Option SelData) (default_value : Val) :
    Option SelData :=
  match data with
  | none => none
  | some d =>
    match d.points with
    | none => some d
    | some pts =>
      some { points := some (pts.map (fun p => zoomOutPoint p default_value)),
             range := none }

/-- `_get_crossfilter_keys`: flatten the mapping values into a key set. -/
def get_crossfilter_keys (filter_mapping : List (String × FilterKey)) : List String :=
  filter_mapping.foldl
    (fun keys p =>
      match p.2 with
      | .multi ks => ks.foldl strInsert keys
      | .single k => strInsert keys k)
    []

/-- `_exclude_keys`: copy of the filters without the given keys. -/
def exclude_keys (filters : Dict) (keys_to_exclude : List String) : Dict :=
  filters.filter (fun p => !keys_to_exclude.contains p.1)

/-- `_is_active`: some key's current value differs from the default. -/
def is_active (filters : Dict) (keys : List String) (default_value : Val) : Bool :=
  keys.any (fun k => pyGet filters k != default_value)

/-- `_apply_defaults`: copy of the filters with every key set to the default. -/
def apply_defaults (filters : Dict) (keys : List String) (default_value : Val) : Dict :=
  keys.foldl (fun d k => dset d k default_value) filters

/-- `_is_unchanged`: the two dicts agree (via `.get`) on every key. -/
def is_unchanged (new_filters old_filters : Dict) (keys : List String) : Bool :=
  keys.all (fun k => pyGet new_filters k == pyGet old_filters k)

/-- The writes `_update_filters_from_selection_values` performs, in order.
The helper only ever assigns `filters[k] = v`, so it is captured by this
write list; a two-key mapping of any other length would raise in Python
(list used as a dict key) and emits nothing here. -/
def selection_value_writes (filter_key : FilterKey) (selected_values : List Val)
    (default_value : Val) : List (String × Val) :=
  if selected_values.isEmpty ||
      (selected_values.length == 1 &&
        selected_values.headD Val.vnone == default_value) then
    -- empty or default-only selection: reset the key(s)
    match filter_key with
    | .multi ks => ks.map (fun k => (k, default_value))
    | .single k => [(k, default_value)]
  else
    match filter_key with
    | .multi ks =>
      if ks.length == 2 then
        let sorted_vals := sortVals selected_values
        [(ks.getD 0 "", sorted_vals.headD Val.vnone),
         (ks.getD 1 "", sorted_vals.getLastD Val.vnone)]
      else []
    | .single k =>
      match pyInt (selected_values.headD Val.vnone) with
      | some _ =>
        -- first value casts to int: try to cast them all
        match selected_values.mapM pyInt with
        | some ints => [(k, Val.vlist ((sortQ (ints.map (fun i => (i : ℚ)))).map Val.vnum))]
        | none => [(k, Val.vlist (sortVals selected_values))]
      | none => [(k, Val.vlist (sortVals selected_values))]

/-- `_update_filters_from_selection_values`, as the application of its writes. -/
def update_filters_from_selection_values (filters : Dict) (filter_key : FilterKey)
    (selected_values : List Val) (default_value : Val) : Dict :=
  applyWrites (selection_value_writes filter_key selected_values default_value) filters

/-- The `selections` dict built by `_process_selection`: x and y (points
unioned with ranges) first, then the remaining point attributes in order. -/
def buildSelections (data : Option SelData) (x_order y_order : Option (List Val)) :
    List (String × List Val) :=
  let points_by_attribute := parse_selected_points data x_order y_order
  let ranges := parse_selected_range data x_order y_order
  let getSet := fun (k : String) =>
    match points_by_attribute.find? (fun p => p.1 == k) with
    | some p => p.2
    | none => []
  [("x", vsUnion (getSet "x") ranges.1), ("y", vsUnion (getSet "y") ranges.2)] ++
    points_by_attribute.filter (fun p => p.1 != "x" && p.1 != "y")

/-- All dict writes `_process_selection` performs, in selection order. -/
def processSelectionWrites (data : Option SelData)
    (mapping : List (String × FilterKey)) (x_order y_order : Option (List Val))
    (default_value : Val) : List (String × Val) :=
  (buildSelections data x_order y_order).foldl
    (fun acc sel =>
      match fmGet mapping sel.1 with
      | some fk =>
        if keyTruthy fk then acc ++ selection_value_writes fk sel.2 default_value
        else acc
      | none => acc)
    []

/-- `_process_selection`: parse the payload and fold its selections into a
copy of the filters. -/
def process_selection (data : Option SelData) (filters : Dict)
    (mapping : List (String × FilterKey)) (x_order y_order : Option (List Val))
    (default_value : Val) : Dict :=
  (buildSelections data x_order y_order).foldl
    (fun new_filters sel =>
      match fmGet mapping sel.1 with
      | some fk =>
        if keyTruthy fk then
          update_filters_from_selection_values new_filters fk sel.2 default_value
        else new_filters
      | none => new_filters)
    filters

/-- `clear_button_id is not None and trigger_id == clear_button_id`. -/
def isClearTriggered (clear_button_id : Option String) (trigger_id : String) : Bool :=
  match clear_button_id with
  | some b => trigger_id == b
  | none => false

/-- Step 2 of `update_filters_from_crossfilter_selection`: the
`new_store_filters` computation for a self- or clear-triggered callback
(`none` is the early ghost-trigger return). -/
def newStoreFilters (is_clear_triggered is_click_event : Bool)
    (data : Option SelData) (current_filters : Dict)
    (crossfilter_keys : List String) (filter_mapping : List (String × FilterKey))
    (x_order y_order : Option (List Val)) (default_value : Val) : Option Dict :=
  if is_clear_triggered || is_selection_empty data then
    if !is_clear_triggered && !is_click_event &&
        is_active current_filters crossfilter_keys default_value then
      none  -- 2.a.1. ghost trigger: suppress
    else
      some (apply_defaults current_filters crossfilter_keys default_value)
  else
    some (process_selection data current_filters filter_mapping
      x_order y_order default_value)

/-- `update_filters_from_crossfilter_selection`: the cross-filter
reconciliation protocol.  `none` suppresses the update entirely; otherwise
the pair is (store filters or `none` for figure-only, chart-local filters). -/
def update_filters_from_crossfilter_selection
    (trigger_id component_id : String)
    (selected_data : Option SelData)
    (current_filters : Dict)
    (filter_mapping : List (String × FilterKey))
    (click_data : Option SelData)
    (x_order y_order : Option (List Val))
    (default_value : Val)
    (is_hierarchical : Bool)
    (clear_button_id : Option String) :
    Option (Option Dict × Dict) :=
  let is_self_triggered := trigger_id == component_id
  let is_clear_triggered := isClearTriggered clear_button_id trigger_id
  let is_click_event := click_data.isSome && selected_data.isNone
  let click_data2 :=
    if is_self_triggered && is_click_event && is_hierarchical then
      handle_hierarchical_zoom_out click_data default_value
    else click_data
  let data := pyOr selected_data click_data2
  let crossfilter_keys := get_crossfilter_keys filter_mapping
  if !is_self_triggered && !is_clear_triggered then
    -- 1. store or initial load: figure-only result
    some (none, exclude_keys current_filters crossfilter_keys)
  else
    let new_store_filters : Option Dict :=
      newStoreFilters is_clear_triggered is_click_event data current_filters
        crossfilter_keys filter_mapping x_order y_order default_value
    match new_store_filters with
    | none => none
    | some nf =>
      if is_unchanged nf current_filters crossfilter_keys then none
      else some (some nf, exclude_keys nf crossfilter_keys)

/-!  `filters.py`: SQL condition builders and the filter type registry. -/

/-- `str(v).replace(squote, squote squote)`: double every single quote. -/
def escapeQuotes (s : String) : String :=
  String.mk (s.data.foldr (fun c acc => if c == sqc then sqc :: sqc :: acc else c :: acc) [])

/-- `_format_sql_value`: numbers unquoted, everything else stringified with
quotes doubled and wrapped in single quotes. -/
def format_sql_value (v : Val) : String :=
  match v with
  | .vnum _ => pyStr v
  | _ => sqs ++ escapeQuotes (pyStr v) ++ sqs

/-- `_categorical_condition`. -/
def categorical_condition (field : String) (value : Val) : Option String :=
  if pyTruthy value && value != Val.vstr "all" then
    some (field ++ " = " ++ format_sql_value value)
  else none

/-- `_categorical_list_condition`. -/
def categorical_list_condition (field : String) (value : Val) : Option String :=
  if !pyTruthy value || value == Val.vstr "all" ||
      (match value with | .vlist l => l.isEmpty | _ => false) then
    none
  else
    match value with
    | .vlist l =>
      some (field ++ " IN (" ++ String.intercalate ", " (l.map format_sql_value) ++ ")")
    | _ => some (field ++ " = " ++ format_sql_value value)

/-- `_prefix_condition` (note the source escapes here ad hoc, not through
`_format_sql_value`). -/
def prefix_condition (field : String) (value : Val) : Option String :=
  if !pyTruthy value || value == Val.vstr "all" ||
      (match value with | .vlist l => l.isEmpty | _ => false) then
    none
  else
    match value with
    | .vlist l =>
      some ("(" ++ String.intercalate " OR "
        (l.map (fun v => field ++ " LIKE " ++ sqs ++ escapeQuotes (pyStr v) ++ "%" ++ sqs))
        ++ ")")
    | _ => some (field ++ " LIKE " ++ sqs ++ escapeQuotes (pyStr value) ++ "%" ++ sqs)

/-- `FilterType`: name, condition builder, default value. -/
structure FilterType : Type where
  name : String
  build_condition : String → Val → Option String
  default_value : Val

/-- `FILTER_TYPES`: the registry of built-in filter kinds.  The `date_gte`
and `date_lte` lambdas interpolate the raw value between quotes, with no
escaping — exactly as in the source. -/
def FILTER_TYPES : List (String × FilterType) :=
  [("boolean",
    { name := "boolean",
      build_condition := fun field value =>
        if pyTruthy value then some (field ++ " = true") else none,
      default_value := Val.vbool false }),
   ("categorical",
    { name := "categorical",
      build_condition := categorical_condition,
      default_value := Val.vstr "all" }),
   ("date_gte",
    { name := "date_gte",
      build_condition := fun field value =>
        if pyTruthy value then some (field ++ " >= " ++ sqs ++ pyStr value ++ sqs)
        else none,
      default_value := Val.vnone }),
   ("date_lte",
    { name := "date_lte",
      build_condition := fun field value =>
        if pyTruthy value then some (field ++ " <= " ++ sqs ++ pyStr value ++ sqs)
        else none,
      default_value := Val.vnone }),
   ("categorical_list",
    { name := "categorical_list",
      build_condition := categorical_list_condition,
      default_value := Val.vstr "all" }),
   ("prefix",
    { name := "prefix",
      build_condition := prefix_condition,
      default_value := Val.vstr "all" })]

/-- `FILTER_TYPES[name]` (registry lookup, as in `resolve_filter_type`). -/
def filterType (n : String) : FilterType :=
  match FILTER_TYPES.find? (fun p => p.1 == n) with
  | some p => p.2
  | none => { name := "", build_condition := fun _ _ => none, default_value := Val.vnone }

/-!  `aggregations.py` and the zero-row branch of
`data.py::_calculate_aggregate_stats`. -/

/-- `AggregateStat`: one aggregation statistic (the `value_extractor`, used
only on the nonzero-row path, stays inside the extraction oracle below). -/
structure AggregateStat : Type where
  aggregation_expr : String
  column_alias : String
  default_value : Val

/-- `AggregateStatGroup`. -/
structure AggregateStatGroup : Type where
  stats : List AggregateStat

/-- `AggregateStatGroup.get_defaults`. -/
def AggregateStatGroup.get_defaults (g : AggregateStatGroup) : Dict :=
  g.stats.map (fun stat => (stat.column_alias, stat.default_value))

/-- `_calculate_aggregate_stats`: when the filtered row count is zero,
return the group's defaults; otherwise the result comes from the external
query engine plus `extract_values`, modelled by the oracle parameter. -/
def calculate_aggregate_stats (count : Nat)
    (extractFromEngine : AggregateStatGroup → Dict)
    (aggregate_stat_group : AggregateStatGroup) : Dict :=
  if count == 0 then aggregate_stat_group.get_defaults
  else extractFromEngine aggregate_stat_group

/-- `INCIDENTS_SUMMARY_CARD_STATS` from `apps/cornsacks/tables.py`. -/
def INCIDENTS_SUMMARY_CARD_STATS : AggregateStatGroup :=
  { stats :=
    [{ aggregation_expr := "COUNT(*)", column_alias := "total_count",
       default_value := Val.vstr "0" },
     { aggregation_expr := "SUM(unit_response_count)",
       column_alias := "total_unit_responses", default_value := Val.vstr "0" },
     { aggregation_expr := "CAST(COALESCE(QUANTILE_CONT(duration, 0.9), 0) AS BIGINT)",
       column_alias := "p90_duration", default_value := Val.vstr "0m 0s" },
     { aggregation_expr := "SUM(csst_hazard_flag)", column_alias := "csst_count",
       default_value := Val.vstr "0" },
     { aggregation_expr := "SUM(electric_hazard_flag)",
       column_alias := "electric_count", default_value := Val.vstr "0" },
     { aggregation_expr := "SUM(powergen_hazard_flag)",
       column_alias := "powergen_count", default_value := Val.vstr "0" },
     { aggregation_expr := "SUM(medical_oxygen_hazard_flag)",
       column_alias := "medical_oxygen_count", default_value := Val.vstr "0" },
     { aggregation_expr := "SUM(displacement_count)",
       column_alias := "total_displacements", default_value := Val.vstr "0" },
     { aggregation_expr := "SUM(rescue_animal)",
       column_alias := "total_rescue_animals", default_value := Val.vstr "0" },
     { aggregation_expr := "SUM(exposure_count)",
       column_alias := "total_exposures", default_value := Val.vstr "0" }] }

/-!  A heap-instrumented rendering of the reconciliation protocol for the
frame condition (claim about mutation-freedom).  Dicts live in a heap of
cells; `.copy()` allocates, `d[k] = v` writes the owning cell in place.
Every function below performs exactly the allocations and cell writes the
Python code performs. -/

/-- The heap: one cell per live dict, addressed by allocation index. -/
abbrev Heap := List Dict

/-- Read a cell. -/
def hGet (H : Heap) (p : Nat) : Dict := H.getD p []

/-- Overwrite a cell. -/
def hSet (H : Heap) (p : Nat) (d : Dict) : Heap := H.set p d

/-- Allocate a fresh cell, returning the new heap and the cell address. -/
def hAlloc (H : Heap) (d : Dict) : Heap × Nat := (H ++ [d], H.length)

/-- Perform a list of `d[k] = v` writes on the cell at `q`. -/
def writeKeysH (H : Heap) (q : Nat) (ws : List (String × Val)) : Heap :=
  ws.foldl (fun H2 w => hSet H2 q (dset (hGet H2 q) w.1 w.2)) H

/-- `_apply_defaults` on the heap: `filters.copy()` then the key-reset loop. -/
def applyDefaultsH (H : Heap) (p : Nat) (keys : List String) (default_value : Val) :
    Heap × Nat :=
  let a := hAlloc H (hGet H p)
  (writeKeysH a.1 a.2 (keys.map (fun k => (k, default_value))), a.2)

/-- `_process_selection` on the heap: `filters.copy()` then the selection
writes (the pure write list is shared with the functional rendering). -/
def processSelectionH (H : Heap) (data : Option SelData) (p : Nat)
    (mapping : List (String × FilterKey)) (x_order y_order : Option (List Val))
    (default_value : Val) : Heap × Nat :=
  let a := hAlloc H (hGet H p)
  (writeKeysH a.1 a.2 (processSelectionWrites data mapping x_order y_order default_value),
   a.2)

/-- `_exclude_keys` on the heap: a dict comprehension allocates a fresh dict. -/
def excludeKeysH (H : Heap) (p : Nat) (keys : List String) : Heap × Nat :=
  hAlloc H (exclude_keys (hGet H p) keys)

/-- `update_filters_from_crossfilter_selection` on the heap:
`current_filters` is a cell address; the result holds cell addresses. -/
def update_filters_H
    (H : Heap)
    (trigger_id component_id : String)
    (selected_data : Option SelData)
    (current_filters : Nat)
    (filter_mapping : List (String × FilterKey))
    (click_data : Option SelData)
    (x_order y_order : Option (List Val))
    (default_value : Val)
    (is_hierarchical : Bool)
    (clear_button_id : Option String) :
    Heap × Option (Option Nat × Nat) :=
  let is_self_triggered := trigger_id == component_id
  let is_clear_triggered := isClearTriggered clear_button_id trigger_id
  let is_click_event := click_data.isSome && selected_data.isNone
  let click_data2 :=
    if is_self_triggered && is_click_event && is_hierarchical then
      handle_hierarchical_zoom_out click_data default_value
    else click_data
  let data := pyOr selected_data click_data2
  let crossfilter_keys := get_crossfilter_keys filter_mapping
  if !is_self_triggered && !is_clear_triggered then
    let r := excludeKeysH H current_filters crossfilter_keys
    (r.1, some (none, r.2))
  else
    let step : Heap × Option Nat :=
      if is_clear_triggered || is_selection_empty data then
        if !is_clear_triggered && !is_click_event &&
            is_active (hGet H current_filters) crossfilter_keys default_value then
          (H, none)
        else
          let r := applyDefaultsH H current_filters crossfilter_keys default_value
          (r.1, some r.2)
      else
        let r := processSelectionH H data current_filters filter_mapping
          x_order y_order default_value
        (r.1, some r.2)
    match step with
    | (H2, none) => (H2, none)
    | (H2, some nf) =>
      if is_unchanged (hGet H2 nf) (hGet H2 current_filters) crossfilter_keys then
        (H2, none)
      else
        let r := excludeKeysH H2 nf crossfilter_keys
        (r.1, some (some nf, r.2))

/-!  Shared lemmas about the dict and write-list operations. -/

/-- `dset` behaves as a pointwise update under `pyGet`. -/
theorem pyGet_dset (d : Dict) (k : String) (v : Val) (k2 : String) :
    pyGet (dset d k v) k2 = if k2 = k then v else pyGet d k2 := by
  induction d with
  | nil =>
    by_cases h : k2 = k
    · subst h; simp [dset, pyGet]
    · have h1 : (k == k2) = false := by simp; exact fun he => h he.symm
      simp [dset, pyGet, h1, h]
  | cons p rest ih =>
    by_cases hpk : p.1 = k
    · have hb : (p.1 == k) = true := by simp [hpk]
      by_cases h : k2 = k
      · subst h
        simp [dset, hb, pyGet]
      · have h1 : (k == k2) = false := by simp; exact fun he => h he.symm
        have h2 : (p.1 == k2) = false := by
          simp; intro he; exact h (by rw [← he, hpk])
        simp [dset, hb, pyGet, h1, h2, h]
    · have hb : (p.1 == k) = false := by simp [hpk]
      by_cases hp2 : p.1 = k2
      · have h : ¬ k2 = k := fun he => hpk (by rw [hp2, he])
        have hb2 : (p.1 == k2) = true := by simp [hp2]
        simp [dset, hb, pyGet, hb2, h]
      · have hb2 : (p.1 == k2) = false := by simp [hp2]
        simp [dset, hb, pyGet, hb2, ih]

/-- Unfolding `applyWrites` over a cons. -/
theorem applyWrites_cons (w : String × Val) (ws : List (String × Val)) (d : Dict) :
    applyWrites (w :: ws) d = applyWrites ws (dset d w.1 w.2) := rfl

/-- `applyWrites` over an append is sequential application. -/
theorem applyWrites_append (ws1 ws2 : List (String × Val)) (d : Dict) :
    applyWrites (ws1 ++ ws2) d = applyWrites ws2 (applyWrites ws1 d) := by
  simp [applyWrites, List.foldl_append]

/-- The dict produced by a write list reads back as the last write, with the
base dict underneath. -/
theorem pyGet_applyWrites (ws : List (String × Val)) (d : Dict) (k : String) :
    pyGet (applyWrites ws d) k = (lastWrite ws k).getD (pyGet d k) := by
  induction ws generalizing d with
  | nil => simp [applyWrites, lastWrite]
  | cons w ws ih =>
    rw [applyWrites_cons, ih, pyGet_dset]
    show _ = ((lastWrite ws k).or (if w.1 == k then some w.2 else none)).getD _
    cases hlw : lastWrite ws k with
    | some v => simp
    | none =>
      by_cases h : k = w.1
      · have hb : (w.1 == k) = true := by simp [h.symm]
        simp [h, hb]
      · have hb : (w.1 == k) = false := by simp; exact fun he => h he.symm
        simp [h, hb]

/-- Re-applying the same write list is invisible to `pyGet`. -/
theorem pyGet_applyWrites_idem (ws : List (String × Val)) (d : Dict) (k : String) :
    pyGet (applyWrites ws (applyWrites ws d)) k = pyGet (applyWrites ws d) k := by
  rw [pyGet_applyWrites, pyGet_applyWrites]
  cases hlw : lastWrite ws k <;> simp

/-- `_is_unchanged` holds between a write-list application and its
re-application, on any key list. -/
theorem is_unchanged_applyWrites (ws : List (String × Val)) (d : Dict)
    (keys : List String) :
    is_unchanged (applyWrites ws (applyWrites ws d)) (applyWrites ws d) keys = true := by
  simp only [is_unchanged, List.all_eq_true]
  intro k _
  simp [pyGet_applyWrites_idem]

/-- `_apply_defaults` is the application of one constant write per key. -/
theorem apply_defaults_eq_applyWrites (f : Dict) (keys : List String) (dv : Val) :
    apply_defaults f keys dv = applyWrites (keys.map (fun k => (k, dv))) f := by
  simp [apply_defaults, applyWrites, List.foldl_map]

/-- The last constant write for a key exists exactly when the key is listed. -/
theorem lastWrite_const (keys : List String) (dv : Val) (k : String) :
    lastWrite (keys.map (fun k2 => (k2, dv))) k =
      (if k ∈ keys then some dv else none) := by
  induction keys with
  | nil => simp [lastWrite]
  | cons a as ih =>
    rw [List.map_cons]
    show ((lastWrite (as.map fun k2 => (k2, dv)) k).or
      (if a == k then some dv else none)) = _
    rw [ih]
    by_cases hmem : k ∈ as
    · simp [hmem, List.mem_cons]
    · by_cases hak : a = k
      · simp [hmem, hak]
      · have hb : (a == k) = false := by simp [hak]
        have hka : ¬ k = a := fun he => hak he.symm
        simp [hmem, hka, hb, List.mem_cons]

/-- After `_apply_defaults`, every listed key reads as the default. -/
theorem pyGet_apply_defaults_mem (f : Dict) (keys : List String) (dv : Val)
    (k : String) (hk : k ∈ keys) :
    pyGet (apply_defaults f keys dv) k = dv := by
  rw [apply_defaults_eq_applyWrites, pyGet_applyWrites, lastWrite_const]
  simp [hk]

/-- `_is_active` is false right after `_apply_defaults` on the same keys. -/
theorem is_active_apply_defaults (f : Dict) (keys : List String) (dv : Val) :
    is_active (apply_defaults f keys dv) keys dv = false := by
  simp only [is_active, List.any_eq_false]
  intro k hk
  simp [bne_iff_ne, pyGet_apply_defaults_mem f keys dv k hk]

/-- `_process_selection` is the application of its write list. -/
theorem process_selection_eq_applyWrites (data : Option SelData) (f : Dict)
    (fm : List (String × FilterKey)) (xo yo : Option (List Val)) (dv : Val) :
    process_selection data f fm xo yo dv =
      applyWrites (processSelectionWrites data fm xo yo dv) f := by
  unfold process_selection processSelectionWrites
  suffices h : ∀ (L : List (String × List Val)) (ws0 : List (String × Val)),
      L.foldl
        (fun new_filters sel =>
          match fmGet fm sel.1 with
          | some fk =>
            if keyTruthy fk then
              update_filters_from_selection_values new_filters fk sel.2 dv
            else new_filters
          | none => new_filters)
        (applyWrites ws0 f) =
      applyWrites
        (L.foldl
          (fun acc sel =>
            match fmGet fm sel.1 with
            | some fk =>
              if keyTruthy fk then acc ++ selection_value_writes fk sel.2 dv
              else acc
            | none => acc)
          ws0) f by
    have h2 := h (buildSelections data xo yo) []
    simpa [applyWrites] using h2
  intro L
  induction L with
  | nil => intro ws0; simp
  | cons sel rest ih =>
    intro ws0
    simp only [List.foldl_cons]
    cases hfm : fmGet fm sel.1 with
    | none => exact ih ws0
    | some fk =>
      by_cases htr : keyTruthy fk
      · simp only [htr, if_true]
        rw [show update_filters_from_selection_values (applyWrites ws0 f) fk sel.2 dv =
            applyWrites (ws0 ++ selection_value_writes fk sel.2 dv) f from by
          rw [applyWrites_append]; rfl]
        exact ih (ws0 ++ selection_value_writes fk sel.2 dv)
      · simp only [htr, if_false]
        exact ih ws0

/-- Falling back from a falsy selection payload preserves emptiness. -/
theorem is_selection_empty_pyOr_none (sd : Option SelData)
    (h : is_selection_empty sd = true) :
    is_selection_empty (pyOr sd none) = true := by
  cases sd with
  | none => rfl
  | some d =>
    cases ht : pyTruthySel d with
    | true => simpa [pyOr, ht] using h
    | false => simp [pyOr, ht, is_selection_empty]

/-- `_exclude_keys` removes every listed key. -/
theorem hasKey_exclude_keys (f : Dict) (keys : List String) (k : String)
    (hk : k ∈ keys) : hasKey (exclude_keys f keys) k = false := by
  simp only [hasKey, exclude_keys, List.any_eq_false]
  intro p hp
  rw [List.mem_filter] at hp
  have h2 : p.1 ∉ keys := by
    have := hp.2
    simp at this
    exact this
  simp
  intro he
  exact h2 (by rw [he]; exact hk)

/-- `_exclude_keys` leaves every other key's value alone. -/
theorem pyGet_exclude_keys_not_mem (f : Dict) (keys : List String) (k : String)
    (hk : k ∉ keys) : pyGet (exclude_keys f keys) k = pyGet f k := by
  induction f with
  | nil => rfl
  | cons p rest ih =>
    cases hc : keys.contains p.1 with
    | true =>
      have hmem : p.1 ∈ keys := by simpa using hc
      have h1 : (p.1 == k) = false := by
        simp
        intro he
        exact hk (he ▸ hmem)
      simp only [exclude_keys, List.filter_cons, hc, Bool.not_true, Bool.false_eq_true,
        if_false]
      simp only [exclude_keys] at ih
      rw [ih]
      simp [pyGet, h1]
    | false =>
      simp only [exclude_keys, List.filter_cons, hc, Bool.not_false, if_pos]
      simp only [pyGet]
      cases hpk : (p.1 == k)
      · simp only [Bool.false_eq_true, if_neg, if_false]
        simpa [exclude_keys] using ih
      · simp

/-- C1.  Ghost-trigger guard: when the chart triggered itself, the trigger is
not the clear button, there is no click payload, the selection payload is
empty (no points and no range), and some mapped key is non-default in the
store, `update_filters_from_crossfilter_selection` returns `none` — no store
update and no figure update. -/
theorem ghost_trigger_suppresses_update
    (trigger_id component_id : String) (selected_data : Option SelData)
    (current_filters : Dict) (filter_mapping : List (String × FilterKey))
    (x_order y_order : Option (List Val)) (default_value : Val)
    (is_hierarchical : Bool) (clear_button_id : Option String)
    (hself : trigger_id = component_id)
    (hclear : clear_button_id ≠ some trigger_id)
    (hempty : is_selection_empty selected_data = true)
    (hactive : is_active current_filters (get_crossfilter_keys filter_mapping)
      default_value = true) :
    update_filters_from_crossfilter_selection trigger_id component_id selected_data
      current_filters filter_mapping none x_order y_order default_value
      is_hierarchical clear_button_id = none := by
  have hs : (trigger_id == component_id) = true := by simp [hself]
  have hc : isClearTriggered clear_button_id trigger_id = false := by
    cases clear_button_id with
    | none => rfl
    | some b =>
      have hbne : (trigger_id == b) = false := by
        simp
        intro he
        exact hclear (by rw [he])
      simp [isClearTriggered, hbne]
  have hes : is_selection_empty (pyOr selected_data none) = true :=
    is_selection_empty_pyOr_none selected_data hempty
  simp [update_filters_from_crossfilter_selection, newStoreFilters, hs, hc, hes,
    hactive]

/-- C1 witness. -/
theorem ghost_trigger_suppresses_update_witness :
    update_filters_from_crossfilter_selection "chart" "chart"
      (some { points := some [], range := none })
      [("day_of_week", Val.vlist [Val.vstr "Mon"])]
      [("x", FilterKey.single "day_of_week")] none none none (Val.vstr "all")
      false (some "clear-btn") = none :=
  ghost_trigger_suppresses_update "chart" "chart"
    (some { points := some [], range := none })
    [("day_of_week", Val.vlist [Val.vstr "Mon"])]
    [("x", FilterKey.single "day_of_week")] none none (Val.vstr "all")
    false (some "clear-btn") rfl (by decide) (by decide) (by decide)

/-- C2.  External (store / initial-load) triggers are figure-only: the result
is `(none, F)` where `F` is the current store with every flattened mapped key
removed; no mapped key occurs in `F`, and unmapped keys keep their values. -/
theorem store_trigger_is_figure_only
    (trigger_id component_id : String) (selected_data : Option SelData)
    (current_filters : Dict) (filter_mapping : List (String × FilterKey))
    (click_data : Option SelData) (x_order y_order : Option (List Val))
    (default_value : Val) (is_hierarchical : Bool) (clear_button_id : Option String)
    (hne : trigger_id ≠ component_id)
    (hclear : clear_button_id ≠ some trigger_id) :
    update_filters_from_crossfilter_selection trigger_id component_id selected_data
      current_filters filter_mapping click_data x_order y_order default_value
      is_hierarchical clear_button_id =
      some (none,
        exclude_keys current_filters (get_crossfilter_keys filter_mapping)) ∧
    (∀ k ∈ get_crossfilter_keys filter_mapping,
      hasKey (exclude_keys current_filters (get_crossfilter_keys filter_mapping)) k
        = false) ∧
    (∀ k, k ∉ get_crossfilter_keys filter_mapping →
      pyGet (exclude_keys current_filters (get_crossfilter_keys filter_mapping)) k
        = pyGet current_filters k) := by
  have hs : (trigger_id == component_id) = false := by simp [hne]
  have hc : isClearTriggered clear_button_id trigger_id = false := by
    cases clear_button_id with
    | none => rfl
    | some b =>
      have hbne : (trigger_id == b) = false := by
        simp
        intro he
        exact hclear (by rw [he])
      simp [isClearTriggered, hbne]
  refine ⟨?_, ?_, ?_⟩
  · simp [update_filters_from_crossfilter_selection, newStoreFilters, hs, hc]
  · intro k hk
    exact hasKey_exclude_keys current_filters (get_crossfilter_keys filter_mapping) k hk
  · intro k hk
    exact pyGet_exclude_keys_not_mem current_filters
      (get_crossfilter_keys filter_mapping) k hk

/-- C2 witness. -/
theorem store_trigger_is_figure_only_witness :
    update_filters_from_crossfilter_selection "filter-store" "chart" none
      [("day_of_week", Val.vlist [Val.vstr "Mon"]), ("state", Val.vstr "CO")]
      [("x", FilterKey.single "day_of_week")] none none none (Val.vstr "all")
      false (some "clear-btn") =
      some (none, [("state", Val.vstr "CO")]) := by
  have h := (store_trigger_is_figure_only "filter-store" "chart" none
    [("day_of_week", Val.vlist [Val.vstr "Mon"]), ("state", Val.vstr "CO")]
    [("x", FilterKey.single "day_of_week")] none none none (Val.vstr "all")
    false (some "clear-btn") (by decide) (by decide)).1
  rw [h]
  decide

/-- If the branch for a self- or clear-triggered callback emits store
filters `S`, then
re-running it with the store already at `S` emits filters indistinguishable
from `S` on the mapped keys — the engine behind boundary idempotence. -/
theorem newStoreFilters_idem (is_clear_triggered is_click_event : Bool)
    (data : Option SelData) (current_filters : Dict)
    (crossfilter_keys : List String) (filter_mapping : List (String × FilterKey))
    (x_order y_order : Option (List Val)) (default_value : Val) (S : Dict)
    (h : newStoreFilters is_clear_triggered is_click_event data current_filters
      crossfilter_keys filter_mapping x_order y_order default_value = some S) :
    ∃ S2, newStoreFilters is_clear_triggered is_click_event data S
      crossfilter_keys filter_mapping x_order y_order default_value = some S2 ∧
      is_unchanged S2 S crossfilter_keys = true := by
  unfold newStoreFilters at h ⊢
  by_cases hc2 : (is_clear_triggered || is_selection_empty data) = true
  · rw [if_pos hc2] at h ⊢
    split at h
    next hg => exact absurd h (by simp)
    next hg =>
      have hS : S = apply_defaults current_filters crossfilter_keys default_value := by
        simpa using h.symm
      subst hS
      have hact : is_active
          (apply_defaults current_filters crossfilter_keys default_value)
          crossfilter_keys default_value = false :=
        is_active_apply_defaults _ _ _
      rw [if_neg (by simp [hact])]
      refine ⟨_, rfl, ?_⟩
      simp only [apply_defaults_eq_applyWrites]
      exact is_unchanged_applyWrites _ _ _
  · rw [if_neg hc2] at h ⊢
    have hS : S = process_selection data current_filters filter_mapping
        x_order y_order default_value := by
      simpa using h.symm
    subst hS
    refine ⟨_, rfl, ?_⟩
    simp only [process_selection_eq_applyWrites]
    exact is_unchanged_applyWrites _ _ _

/-- C3.  Idempotence at the boundary: whenever a call emits a store update
`(some S, F)`, repeating the call with the store already equal to `S` (all
other arguments unchanged) suppresses the update entirely — no update is
ever emitted whose store value matches the current store on the mapped keys. -/
theorem crossfilter_update_idempotent
    (trigger_id component_id : String) (selected_data : Option SelData)
    (current_filters : Dict) (filter_mapping : List (String × FilterKey))
    (click_data : Option SelData) (x_order y_order : Option (List Val))
    (default_value : Val) (is_hierarchical : Bool) (clear_button_id : Option String)
    (S F : Dict)
    (h : update_filters_from_crossfilter_selection trigger_id component_id
      selected_data current_filters filter_mapping click_data x_order y_order
      default_value is_hierarchical clear_button_id = some (some S, F)) :
    update_filters_from_crossfilter_selection trigger_id component_id selected_data
      S filter_mapping click_data x_order y_order default_value is_hierarchical
      clear_button_id = none := by
  unfold update_filters_from_crossfilter_selection at h ⊢
  simp only [] at h ⊢
  split at h
  next h1 => exact absurd h (by simp)
  next h1 =>
    rw [if_neg h1]
    split at h
    next heq => exact absurd h (by simp)
    next nf heq =>
      split at h
      next hunch => exact absurd h (by simp)
      next hunch =>
        have hnfS : nf = S := by
          have h2 := h
          simp at h2
          exact h2.1
        rw [hnfS] at heq
        obtain ⟨S2, hS2, hS2u⟩ := newStoreFilters_idem _ _ _ _ _ _ _ _ _ _ heq
        rw [hS2]
        simp [hS2u]

/-- C3 witness. -/
theorem crossfilter_update_idempotent_witness :
    update_filters_from_crossfilter_selection "chart" "chart"
      (some { points := some [[("x", Val.vstr "Mon")]], range := none })
      [("other", Val.vstr "z"), ("day", Val.vlist [Val.vstr "Mon"])]
      [("x", FilterKey.single "day")] none none none (Val.vstr "all") false
      (some "clear-btn") = none :=
  crossfilter_update_idempotent "chart" "chart"
    (some { points := some [[("x", Val.vstr "Mon")]], range := none })
    [("other", Val.vstr "z")]
    [("x", FilterKey.single "day")] none none none (Val.vstr "all") false
    (some "clear-btn")
    [("other", Val.vstr "z"), ("day", Val.vlist [Val.vstr "Mon"])]
    [("other", Val.vstr "z")]
    (by decide)

/-- C4 counterexample: resolving x = [2.2, 5.7] against the seven-day order
list yields a set containing "Sun" (round(5.7) = 6 and index 6 is "Sun"), so
it is not the claimed set containing only Wed, Thu, Fri, Sat. -/
theorem range_resolution_claim_counterexample :
    (resolve_coordinate_range [Val.vnum (mkRat 11 5), Val.vnum (mkRat 57 10)]
        (some [Val.vstr "Mon", Val.vstr "Tue", Val.vstr "Wed", Val.vstr "Thu",
          Val.vstr "Fri", Val.vstr "Sat", Val.vstr "Sun"])).contains
      (Val.vstr "Sun") = true ∧
    ([Val.vstr "Wed", Val.vstr "Thu", Val.vstr "Fri",
      Val.vstr "Sat"] : List Val).contains (Val.vstr "Sun") = false := by
  decide

/-- C4 (amended).  Resolving the range x = [2.2, 5.7] against the order list
["Mon", ..., "Sun"] rounds the endpoints to indices 2 and 6 and yields
exactly the set of labels at the in-bounds inclusive index range:
{"Wed", "Thu", "Fri", "Sat", "Sun"}; `_parse_selected_range` produces the
same set for the x axis of such a selection payload. -/
theorem range_resolution_resolved_set :
    resolve_coordinate_range [Val.vnum (mkRat 11 5), Val.vnum (mkRat 57 10)]
        (some [Val.vstr "Mon", Val.vstr "Tue", Val.vstr "Wed", Val.vstr "Thu",
          Val.vstr "Fri", Val.vstr "Sat", Val.vstr "Sun"]) =
      [Val.vstr "Wed", Val.vstr "Thu", Val.vstr "Fri", Val.vstr "Sat",
        Val.vstr "Sun"] ∧
    parse_selected_range
        (some { points := none,
                range := some { x := some [Val.vnum (mkRat 11 5), Val.vnum (mkRat 57 10)],
                                y := none } })
        (some [Val.vstr "Mon", Val.vstr "Tue", Val.vstr "Wed", Val.vstr "Thu",
          Val.vstr "Fri", Val.vstr "Sat", Val.vstr "Sun"]) none =
      ([Val.vstr "Wed", Val.vstr "Thu", Val.vstr "Fri", Val.vstr "Sat",
        Val.vstr "Sun"], []) := by
  decide

/-- C5.  Hierarchical zoom-out rewrite: a clicked point whose `percentEntry`
is 1.0 and whose id is a string different from the default sentinel has its
id rewritten — an id containing "||" becomes everything before the last
"||", a top-level id becomes the default sentinel; a point whose
`percentEntry` is not 1.0 is left unchanged.  Concretely,
"FIRE||STRUCTURE" rewrites to "FIRE" and "FIRE" has no separator (so it
rewrites to the sentinel, "all" by default). -/
theorem hierarchical_zoom_out_rewrite (point : Dict) (default_value : Val)
    (s : String) :
    (pyGet point "percentEntry" = Val.vnum 1 → pyGet point "id" = Val.vstr s →
      Val.vstr s ≠ default_value →
      zoomOutPoint point default_value =
        dset point "id"
          (if containsSep s then Val.vstr (parentSegment s) else default_value)) ∧
    (pyGet point "percentEntry" ≠ Val.vnum 1 →
      zoomOutPoint point default_value = point) ∧
    parentSegment "FIRE||STRUCTURE" = "FIRE" ∧
    containsSep "FIRE" = false := by
  refine ⟨?_, ?_, by decide, by decide⟩
  · intro hpe hid hnd
    have hb : (pyGet point "percentEntry" == Val.vnum 1) = true := by simp [hpe]
    have hnd2 : (Val.vstr s != default_value) = true := by simp [hnd]
    simp only [zoomOutPoint, hb, if_true, hid, hnd2]
    by_cases hcs : containsSep s
    · simp [hcs]
    · simp [hcs]
  · intro hpe
    have hb : (pyGet point "percentEntry" == Val.vnum 1) = false := by simp [hpe]
    simp [zoomOutPoint, hb]

/-- C5 witness. -/
theorem hierarchical_zoom_out_rewrite_witness :
    zoomOutPoint [("percentEntry", Val.vnum 1), ("id", Val.vstr "FIRE||STRUCTURE")]
      (Val.vstr "all") =
      [("percentEntry", Val.vnum 1), ("id", Val.vstr "FIRE")] ∧
    zoomOutPoint [("percentEntry", Val.vnum 1), ("id", Val.vstr "FIRE")]
      (Val.vstr "all") =
      [("percentEntry", Val.vnum 1), ("id", Val.vstr "all")] := by
  constructor
  · have h := (hierarchical_zoom_out_rewrite
      [("percentEntry", Val.vnum 1), ("id", Val.vstr "FIRE||STRUCTURE")]
      (Val.vstr "all") "FIRE||STRUCTURE").1 (by decide) (by decide) (by decide)
    rw [h]
    decide
  · have h := (hierarchical_zoom_out_rewrite
      [("percentEntry", Val.vnum 1), ("id", Val.vstr "FIRE")]
      (Val.vstr "all") "FIRE").1 (by decide) (by decide) (by decide)
    rw [h]
    decide

/-- C6.  Every built-in filter kind applied to its own default value builds
no predicate, and the list-accepting kinds also build none for an empty
list. -/
theorem default_values_build_no_condition (field : String) :
    (filterType "boolean").build_condition field
      (filterType "boolean").default_value = none ∧
    (filterType "categorical").build_condition field
      (filterType "categorical").default_value = none ∧
    (filterType "categorical_list").build_condition field
      (filterType "categorical_list").default_value = none ∧
    (filterType "prefix").build_condition field
      (filterType "prefix").default_value = none ∧
    (filterType "date_gte").build_condition field
      (filterType "date_gte").default_value = none ∧
    (filterType "date_lte").build_condition field
      (filterType "date_lte").default_value = none ∧
    (filterType "categorical_list").build_condition field (Val.vlist []) = none ∧
    (filterType "prefix").build_condition field (Val.vlist []) = none := by
  exact ⟨rfl, rfl, rfl, rfl, rfl, rfl, rfl, rfl⟩

/-- C7 counterexample: a list containing only the sentinel "all" is NOT
treated as empty — the categorical_list builder emits the predicate
`f IN ('all')` instead of returning no predicate. -/
theorem sentinel_only_list_counterexample :
    categorical_list_condition "f" (Val.vlist [Val.vstr "all"]) =
      some ("f IN (" ++ sqs ++ "all" ++ sqs ++ ")") ∧
    categorical_list_condition "f" (Val.vlist [Val.vstr "all"]) ≠ none := by
  decide

/-- C7 (amended).  The categorical_list builder returns no predicate only
for falsy values, the scalar sentinel "all", and the empty list; the
sentinel-only list ["all"] is a nonempty list unequal to the scalar
sentinel, so it builds the IN-predicate over the sentinel itself. -/
theorem sentinel_only_list_builds_in_predicate (field : String) :
    categorical_list_condition field (Val.vlist [Val.vstr "all"]) =
      some (field ++ " IN (" ++ sqs ++ "all" ++ sqs ++ ")") ∧
    categorical_list_condition field (Val.vlist []) = none ∧
    categorical_list_condition field (Val.vstr "all") = none := by
  refine ⟨?_, rfl, rfl⟩
  show some _ = some _
  congr 1
  show field ++ " IN (" ++ String.intercalate ", " [format_sql_value (Val.vstr "all")]
      ++ ")" = _
  have : String.intercalate ", " [format_sql_value (Val.vstr "all")] =
      sqs ++ "all" ++ sqs := by decide
  rw [this]
  simp [String.append_assoc]

/-- C8 (code bug).  The `date_gte`/`date_lte` builders interpolate the raw
value between quotes without escaping: a value containing single quotes is
embedded verbatim, and the result differs from the predicate that the
centralized escaper (`escapeQuotes`, doubling each quote) would produce.
Evaluated at the failing input `2024-01-01' OR '1'='1`. -/
theorem date_builder_embeds_unescaped_value :
    (filterType "date_gte").build_condition "call_create"
        (Val.vstr ("2024-01-01" ++ sqs ++ " OR " ++ sqs ++ "1" ++ sqs ++ "=" ++
          sqs ++ "1")) =
      some ("call_create >= " ++ sqs ++ "2024-01-01" ++ sqs ++ " OR " ++ sqs ++
        "1" ++ sqs ++ "=" ++ sqs ++ "1" ++ sqs) ∧
    (filterType "date_gte").build_condition "call_create"
        (Val.vstr ("2024-01-01" ++ sqs ++ " OR " ++ sqs ++ "1" ++ sqs ++ "=" ++
          sqs ++ "1")) ≠
      some ("call_create >= " ++ sqs ++
        escapeQuotes ("2024-01-01" ++ sqs ++ " OR " ++ sqs ++ "1" ++ sqs ++ "=" ++
          sqs ++ "1") ++ sqs) ∧
    (filterType "date_lte").build_condition "call_create"
        (Val.vstr ("2024-01-01" ++ sqs ++ " OR " ++ sqs ++ "1" ++ sqs ++ "=" ++
          sqs ++ "1")) =
      some ("call_create <= " ++ sqs ++ "2024-01-01" ++ sqs ++ " OR " ++ sqs ++
        "1" ++ sqs ++ "=" ++ sqs ++ "1" ++ sqs) := by
  refine ⟨by decide, by decide, by decide⟩

/-- C9.  Zero-row aggregate fallback: when the filtered row count is zero,
`_calculate_aggregate_stats` returns exactly each configured statistic's
column alias mapped to its configured default (never a null), so the
incidents summary-card group yields total_count "0", p90_duration "0m 0s",
and "0" for every other statistic. -/
theorem zero_rows_aggregate_defaults (g : AggregateStatGroup)
    (extractFromEngine : AggregateStatGroup → Dict) (count : Nat)
    (hcount : count = 0) :
    calculate_aggregate_stats count extractFromEngine g = g.get_defaults ∧
    calculate_aggregate_stats count extractFromEngine INCIDENTS_SUMMARY_CARD_STATS =
      [("total_count", Val.vstr "0"), ("total_unit_responses", Val.vstr "0"),
       ("p90_duration", Val.vstr "0m 0s"), ("csst_count", Val.vstr "0"),
       ("electric_count", Val.vstr "0"), ("powergen_count", Val.vstr "0"),
       ("medical_oxygen_count", Val.vstr "0"), ("total_displacements", Val.vstr "0"),
       ("total_rescue_animals", Val.vstr "0"), ("total_exposures", Val.vstr "0")] := by
  subst hcount
  exact ⟨rfl, rfl⟩

/-- C9 witness. -/
theorem zero_rows_aggregate_defaults_witness :
    calculate_aggregate_stats 0 (fun _ => []) INCIDENTS_SUMMARY_CARD_STATS =
      [("total_count", Val.vstr "0"), ("total_unit_responses", Val.vstr "0"),
       ("p90_duration", Val.vstr "0m 0s"), ("csst_count", Val.vstr "0"),
       ("electric_count", Val.vstr "0"), ("powergen_count", Val.vstr "0"),
       ("medical_oxygen_count", Val.vstr "0"), ("total_displacements", Val.vstr "0"),
       ("total_rescue_animals", Val.vstr "0"), ("total_exposures", Val.vstr "0")] :=
  (zero_rows_aggregate_defaults INCIDENTS_SUMMARY_CARD_STATS (fun _ => []) 0 rfl).2

/-- Appending a fresh cell leaves existing cells readable unchanged. -/
theorem hGet_append_lt (H : Heap) (d : Dict) (p : Nat) (hp : p < H.length) :
    hGet (H ++ [d]) p = hGet H p := by
  simp [hGet, List.getD, List.getElem?_append_left hp]

/-- Writing one cell leaves every other cell unchanged. -/
theorem hGet_set_ne (H : Heap) (q : Nat) (d : Dict) (p : Nat) (hne : q ≠ p) :
    hGet (hSet H q d) p = hGet H p := by
  simp [hGet, hSet, List.getD, List.getElem?_set_ne hne]

/-- Unfolding `writeKeysH` over a cons. -/
theorem writeKeysH_cons (H : Heap) (q : Nat) (w : String × Val)
    (ws : List (String × Val)) :
    writeKeysH H q (w :: ws) =
      writeKeysH (hSet H q (dset (hGet H q) w.1 w.2)) q ws := rfl

/-- `writeKeysH` preserves the heap size. -/
theorem writeKeysH_length (H : Heap) (q : Nat) (ws : List (String × Val)) :
    (writeKeysH H q ws).length = H.length := by
  induction ws generalizing H with
  | nil => rfl
  | cons w ws ih =>
    rw [writeKeysH_cons, ih]
    simp [hSet]

/-- `writeKeysH` touches only the cell it writes. -/
theorem hGet_writeKeysH_ne (H : Heap) (q : Nat) (ws : List (String × Val))
    (p : Nat) (hne : q ≠ p) :
    hGet (writeKeysH H q ws) p = hGet H p := by
  induction ws generalizing H with
  | nil => rfl
  | cons w ws ih =>
    rw [writeKeysH_cons, ih]
    exact hGet_set_ne _ _ _ _ hne

/-- The copy-then-write pattern (`filters.copy()` followed by item writes)
leaves the source cell unchanged and grows the heap by one. -/
theorem copy_write_frame (H : Heap) (p : Nat) (ws : List (String × Val))
    (hp : p < H.length) :
    hGet (writeKeysH (H ++ [hGet H p]) H.length ws) p = hGet H p ∧
    (writeKeysH (H ++ [hGet H p]) H.length ws).length = H.length + 1 := by
  constructor
  · rw [hGet_writeKeysH_ne _ _ _ _ (Nat.ne_of_gt hp)]
    exact hGet_append_lt H _ p hp
  · rw [writeKeysH_length]
    simp

/-- Frame property of the common tail of the self- and clear-triggered
paths: after a copy-then-write produced cell `H.length` in heap `H2`, both the
suppression outcome and the exclude-and-return outcome leave cell `p`
unchanged and only return fresh cell addresses. -/
theorem heap_tail_frame (H : Heap) (p : Nat) (H2 : Heap) (K : List String)
    (hp : p < H.length)
    (hcell : hGet H2 p = hGet H p) (hlen : H2.length = H.length + 1) :
    hGet (if is_unchanged (hGet H2 H.length) (hGet H2 p) K = true then
          ((H2, none) : Heap × Option (Option Nat × Nat))
        else ((excludeKeysH H2 H.length K).1,
          some (some H.length, (excludeKeysH H2 H.length K).2))).1 p = hGet H p ∧
    (∀ sp fp,
      (if is_unchanged (hGet H2 H.length) (hGet H2 p) K = true then
          ((H2, none) : Heap × Option (Option Nat × Nat))
        else ((excludeKeysH H2 H.length K).1,
          some (some H.length, (excludeKeysH H2 H.length K).2))).2 = some (sp, fp) →
      H.length ≤ fp ∧ ∀ q2, sp = some q2 → H.length ≤ q2) := by
  by_cases hu : is_unchanged (hGet H2 H.length) (hGet H2 p) K = true
  · rw [if_pos hu]
    exact ⟨hcell, by intro sp fp heq; exact absurd heq (by simp)⟩
  · rw [if_neg hu]
    refine ⟨?_, ?_⟩
    · simp only [excludeKeysH, hAlloc]
      rw [hGet_append_lt H2 _ p (by omega)]
      exact hcell
    · intro sp fp heq
      simp only [excludeKeysH, hAlloc] at heq
      simp at heq
      obtain ⟨ha, hb⟩ := heq
      refine ⟨by omega, ?_⟩
      intro q2 hq2
      subst hq2
      simp at ha
      omega

/-- C10.  The reconciliation callback never mutates its `current_filters`
argument: in the heap model (dicts as cells, `.copy()` as allocation,
`d[k] = v` as a cell write), the cell holding `current_filters` reads back
unchanged on every path, and every dict the call returns — the store filters
and the chart-local filters — lives in a freshly allocated cell, never in a
pre-existing one. -/
theorem update_filters_heap_frame
    (H : Heap) (trigger_id component_id : String) (selected_data : Option SelData)
    (p : Nat) (filter_mapping : List (String × FilterKey))
    (click_data : Option SelData) (x_order y_order : Option (List Val))
    (default_value : Val) (is_hierarchical : Bool) (clear_button_id : Option String)
    (hp : p < H.length) :
    hGet (update_filters_H H trigger_id component_id selected_data p filter_mapping
      click_data x_order y_order default_value is_hierarchical clear_button_id).1 p
      = hGet H p ∧
    (∀ sp fp, (update_filters_H H trigger_id component_id selected_data p
        filter_mapping click_data x_order y_order default_value is_hierarchical
        clear_button_id).2 = some (sp, fp) →
      H.length ≤ fp ∧ ∀ q2, sp = some q2 → H.length ≤ q2) := by
  unfold update_filters_H
  simp only [excludeKeysH, applyDefaultsH, processSelectionH, hAlloc]
  by_cases h1 : (!(trigger_id == component_id) &&
      !isClearTriggered clear_button_id trigger_id) = true
  · rw [if_pos h1]
    refine ⟨hGet_append_lt H _ p hp, ?_⟩
    intro sp fp heq
    simp at heq
    obtain ⟨ha, hb⟩ := heq
    refine ⟨by omega, ?_⟩
    intro q2 hq2
    subst hq2
    simp at ha
  · rw [if_neg h1]
    by_cases h2 : (isClearTriggered clear_button_id trigger_id ||
        is_selection_empty (pyOr selected_data
          (if (trigger_id == component_id &&
                (click_data.isSome && selected_data.isNone) &&
                is_hierarchical) = true then
            handle_hierarchical_zoom_out click_data default_value
          else click_data))) = true
    · rw [if_pos h2]
      by_cases h3 : (!isClearTriggered clear_button_id trigger_id &&
          !(click_data.isSome && selected_data.isNone) &&
          is_active (hGet H p) (get_crossfilter_keys filter_mapping)
            default_value) = true
      · rw [if_pos h3]
        exact ⟨rfl, by intro sp fp heq; exact absurd heq (by simp)⟩
      · rw [if_neg h3]
        dsimp only
        obtain ⟨hcell, hlen⟩ := copy_write_frame H p
          ((get_crossfilter_keys filter_mapping).map (fun k => (k, default_value))) hp
        exact heap_tail_frame H p _ (get_crossfilter_keys filter_mapping) hp hcell hlen
    · rw [if_neg h2]
      dsimp only
      obtain ⟨hcell, hlen⟩ := copy_write_frame H p
        (processSelectionWrites (pyOr selected_data
          (if (trigger_id == component_id &&
                (click_data.isSome && selected_data.isNone) &&
                is_hierarchical) = true then
            handle_hierarchical_zoom_out click_data default_value
          else click_data)) filter_mapping x_order y_order default_value) hp
      exact heap_tail_frame H p _ (get_crossfilter_keys filter_mapping) hp hcell hlen

/-- C10 witness. -/
theorem update_filters_heap_frame_witness :
    hGet (update_filters_H [[("day", Val.vstr "all")]] "filter-store" "chart" none 0
      [("x", FilterKey.single "day")] none none none (Val.vstr "all") false
      none).1 0 = hGet [[("day", Val.vstr "all")]] 0 :=
  (update_filters_heap_frame [[("day", Val.vstr "all")]] "filter-store" "chart"
    none 0 [("x", FilterKey.single "day")] none none none (Val.vstr "all") false
    none (by decide)).1
